import Mathlib

/-!
Shallow embedding of `src/portfolio.py`: a Pyomo script that builds a
cardinality-constrained long/short mean-variance MIQP, hands it to an
external solver, and derives portfolio statistics from the returned
variable values.

The script works over a universe of `n` investments (tickers).  We index
investments by `Fin n`.  Real-valued data and solver values are modelled
as rationals (`ℚ`); the one place the script takes a square root
(`ann_sharpe`, line 117) is modelled over `ℝ` with `Real.sqrt`.

Linear constraints are embedded as a small syntax (`LinCons`) with a
decidable satisfaction relation, so that the constraint list the script
declares (lines 96-104) can be inspected syntactically (membership,
counting) as well as semantically (feasibility).
-/

namespace Portfolio

/-- A reference to one of the four decision-variable families declared in
`portfolio.py` lines 35-39: `allocation_l[i]`, `allocation_s[i]`,
`d_l[i]`, `d_s[i]`. -/
inductive VarRef (n : ℕ) where
  | allocL : Fin n → VarRef n
  | allocS : Fin n → VarRef n
  | dL : Fin n → VarRef n
  | dS : Fin n → VarRef n
  deriving DecidableEq

/-- One linear term: a rational coefficient times a variable. -/
structure LinTerm (n : ℕ) where
  coeff : ℚ
  var : VarRef n
  deriving DecidableEq

/-- A linear expression: a list of terms plus a constant. -/
structure LinExpr (n : ℕ) where
  terms : List (LinTerm n)
  const : ℚ
  deriving DecidableEq

/-- Direction of a linear inequality (Pyomo `<=` / `>=`). -/
inductive Ineq where
  | le
  | ge
  deriving DecidableEq

/-- A linear constraint `lhs ≤ rhs` or `lhs ≥ rhs`. -/
structure LinCons (n : ℕ) where
  lhs : LinExpr n
  dir : Ineq
  rhs : LinExpr n
  deriving DecidableEq

/-- A numeric assignment to all decision variables, as returned by the
solver (`.value` fields).  The binary variables `d_l`, `d_s` carry
numeric values here because a numeric solver returns floats for them;
their {0,1} domain is a separate condition (`domainOK`). -/
structure Assignment (n : ℕ) where
  allocation_l : Fin n → ℚ
  allocation_s : Fin n → ℚ
  d_l : Fin n → ℚ
  d_s : Fin n → ℚ

/-- Value of a variable reference under an assignment. -/
def evalVar {n : ℕ} (a : Assignment n) : VarRef n → ℚ
  | .allocL i => a.allocation_l i
  | .allocS i => a.allocation_s i
  | .dL i => a.d_l i
  | .dS i => a.d_s i

/-- Value of a linear expression under an assignment. -/
def LinExpr.eval {n : ℕ} (a : Assignment n) (e : LinExpr n) : ℚ :=
  (e.terms.map (fun t => t.coeff * evalVar a t.var)).sum + e.const

/-- Satisfaction of a linear constraint by an assignment. -/
def LinCons.sat {n : ℕ} (a : Assignment n) : LinCons n → Prop
  | ⟨l, Ineq.le, r⟩ => l.eval a ≤ r.eval a
  | ⟨l, Ineq.ge, r⟩ => r.eval a ≤ l.eval a

instance {n : ℕ} (a : Assignment n) : (c : LinCons n) → Decidable (LinCons.sat a c)
  | ⟨l, Ineq.le, r⟩ => inferInstanceAs (Decidable (l.eval a ≤ r.eval a))
  | ⟨l, Ineq.ge, r⟩ => inferInstanceAs (Decidable (r.eval a ≤ l.eval a))

/-- Expression consisting of a single list of terms (constant 0). -/
def vExpr {n : ℕ} (ts : List (LinTerm n)) : LinExpr n := ⟨ts, 0⟩

/-- Constant expression. -/
def cExpr {n : ℕ} (q : ℚ) : LinExpr n := ⟨[], q⟩

/-- Per-asset static data of the script: the lists read from
`prt_array_data.txt` and `covariance_data.txt` (lines 7-10 and the
covariance table), already keyed by investment index. -/
structure AssetData (n : ℕ) where
  returns : Fin n → ℚ
  upper_asset_bounds : Fin n → ℚ
  lower_asset_bounds : Fin n → ℚ
  covariance_mat : Fin n → Fin n → ℚ

/-- The module-level configuration constants of `portfolio.py`
lines 12-19, as a record so claims can also quantify over them. -/
structure ScriptConfig where
  net_upper_long_bound : ℚ
  net_lower_long_bound : ℚ
  net_upper_short_bound : ℚ
  net_lower_short_bound : ℚ
  card : ℚ
  rho : ℚ

/-- The hard-coded values in `portfolio.py` lines 12-19. -/
def scriptConfig : ScriptConfig :=
  { net_upper_long_bound := 1
    net_lower_long_bound := 1/2
    net_upper_short_bound := 1
    net_lower_short_bound := 1/2
    card := 15
    rho := 1/2 }

/-- Line 61: `m.allocation_l[i] <= m.d_l[i] * m.upper_asset_bounds[i]`. -/
def lflag_rule {n : ℕ} (u : AssetData n) (i : Fin n) : LinCons n :=
  ⟨vExpr [⟨1, .allocL i⟩], Ineq.le, vExpr [⟨u.upper_asset_bounds i, .dL i⟩]⟩

/-- Line 65: `-m.allocation_s[i] >= m.d_s[i] * m.lower_asset_bounds[i]`. -/
def sflag_rule {n : ℕ} (u : AssetData n) (i : Fin n) : LinCons n :=
  ⟨vExpr [⟨-1, .allocS i⟩], Ineq.ge, vExpr [⟨u.lower_asset_bounds i, .dS i⟩]⟩

/-- Line 70: `sum(d_l[i] + d_s[i] for i) <= card`. -/
def card_rule (cfg : ScriptConfig) (n : ℕ) : LinCons n :=
  ⟨vExpr ((List.ofFn (fun i : Fin n => [(⟨1, .dL i⟩ : LinTerm n), ⟨1, .dS i⟩])).flatten),
    Ineq.le, cExpr cfg.card⟩

/-- Line 75: `d_l[i] + d_s[i] <= 1`. -/
def binary_rule {n : ℕ} (i : Fin n) : LinCons n :=
  ⟨vExpr [⟨1, .dL i⟩, ⟨1, .dS i⟩], Ineq.le, cExpr 1⟩

/-- Line 79: `sum(allocation_l[i] for i) <= net_upper_long_bound`. -/
def netlong_rule_ub (cfg : ScriptConfig) (n : ℕ) : LinCons n :=
  ⟨vExpr (List.ofFn (fun i : Fin n => (⟨1, .allocL i⟩ : LinTerm n))),
    Ineq.le, cExpr cfg.net_upper_long_bound⟩

/-- Lines 83-84: the rule named `netlong_rule_lb` in the source also
returns `sum(allocation_l[i] for i) <= net_upper_long_bound` (the
`net_lower_long_bound` constant is never referenced). -/
def netlong_rule_lb (cfg : ScriptConfig) (n : ℕ) : LinCons n :=
  ⟨vExpr (List.ofFn (fun i : Fin n => (⟨1, .allocL i⟩ : LinTerm n))),
    Ineq.le, cExpr cfg.net_upper_long_bound⟩

/-- Lines 88-89: `sum(allocation_s[i] for i) <= net_upper_short_bound`. -/
def netshrt_rule_ub (cfg : ScriptConfig) (n : ℕ) : LinCons n :=
  ⟨vExpr (List.ofFn (fun i : Fin n => (⟨1, .allocS i⟩ : LinTerm n))),
    Ineq.le, cExpr cfg.net_upper_short_bound⟩

/-- Lines 93-94: `sum(allocation_s[i] for i) >= net_lower_short_bound`. -/
def netshrt_rule_lb (cfg : ScriptConfig) (n : ℕ) : LinCons n :=
  ⟨vExpr (List.ofFn (fun i : Fin n => (⟨1, .allocS i⟩ : LinTerm n))),
    Ineq.ge, cExpr cfg.net_lower_short_bound⟩

/-- Variable domains declared at lines 35-39: `NonNegativeReals` for the
allocations, `Boolean` ({0,1}) for the indicators. -/
inductive VarDomain where
  | nonNegativeReals
  | binary01
  deriving DecidableEq

/-- The variable declarations in source order (lines 35-39):
`allocation_s`, `allocation_l`, `d_l`, `d_s`, each indexed over the
investment set. -/
def variableDecls (n : ℕ) : List (VarRef n × VarDomain) :=
  (List.ofFn fun i : Fin n => ((.allocS i : VarRef n), VarDomain.nonNegativeReals)) ++
  (List.ofFn fun i : Fin n => ((.allocL i : VarRef n), VarDomain.nonNegativeReals)) ++
  (List.ofFn fun i : Fin n => ((.dL i : VarRef n), VarDomain.binary01)) ++
  (List.ofFn fun i : Fin n => ((.dS i : VarRef n), VarDomain.binary01))

/-- The constraint list declared at lines 97-104, in declaration order.
A Pyomo `Constraint(m.investments, rule=r)` emits one constraint per
investment, so every rule taking an index `i` — including the four
aggregate rules, whose bodies ignore `i` — contributes `n` constraints;
the scalar `Constraint(rule=card_rule)` contributes one. -/
def builtConstraints (cfg : ScriptConfig) {n : ℕ} (u : AssetData n) : List (LinCons n) :=
  (List.ofFn fun i : Fin n => lflag_rule u i) ++
  (List.ofFn fun i : Fin n => sflag_rule u i) ++
  [card_rule cfg n] ++
  (List.ofFn fun i : Fin n => binary_rule i) ++
  (List.ofFn fun _ : Fin n => netlong_rule_ub cfg n) ++
  (List.ofFn fun _ : Fin n => netlong_rule_lb cfg n) ++
  (List.ofFn fun _ : Fin n => netshrt_rule_ub cfg n) ++
  (List.ofFn fun _ : Fin n => netshrt_rule_lb cfg n)

/-- Lines 41-57, `obj_rule`: total expected return of the net positions
minus `rho` times the quadratic covariance form, where the double sum
`for (i,j) in m.covariance_mat` ranges over all ordered index pairs of
the covariance parameter. -/
def obj_rule (cfg : ScriptConfig) {n : ℕ} (u : AssetData n) (a : Assignment n) : ℚ :=
  (∑ i, u.returns i * (a.allocation_l i - a.allocation_s i)) -
    cfg.rho * ∑ p : Fin n × Fin n,
      u.covariance_mat p.1 p.2 * (a.allocation_l p.1 - a.allocation_s p.1) *
        (a.allocation_l p.2 - a.allocation_s p.2)

/-- The MIQP instance the script assembles: the single objective set at
line 96 (with `sense=maximize`), the constraint list of lines 97-104,
and the variable declarations of lines 35-39. -/
structure MIQPInstance (n : ℕ) where
  objective : Assignment n → ℚ
  constraints : List (LinCons n)
  varDecls : List (VarRef n × VarDomain)

/-- The instance built by the script for a given configuration and data. -/
def buildModel (cfg : ScriptConfig) {n : ℕ} (u : AssetData n) : MIQPInstance n :=
  { objective := obj_rule cfg u
    constraints := builtConstraints cfg u
    varDecls := variableDecls n }

/-- The declared variable domains hold: allocations non-negative,
indicators in {0,1} (lines 35-39). -/
def domainOK {n : ℕ} (a : Assignment n) : Prop :=
  ∀ i : Fin n, 0 ≤ a.allocation_s i ∧ 0 ≤ a.allocation_l i ∧
    (a.d_l i = 0 ∨ a.d_l i = 1) ∧ (a.d_s i = 0 ∨ a.d_s i = 1)

instance {n : ℕ} (a : Assignment n) : Decidable (domainOK a) :=
  inferInstanceAs (Decidable (∀ _ : Fin n, _ ∧ _ ∧ _ ∧ _))

/-- Feasibility for the built model: the variable domains hold and every
declared constraint is satisfied. -/
def feasible (cfg : ScriptConfig) {n : ℕ} (u : AssetData n) (a : Assignment n) : Prop :=
  domainOK a ∧ ∀ c ∈ builtConstraints cfg u, c.sat a

instance (cfg : ScriptConfig) {n : ℕ} (u : AssetData n) (a : Assignment n) :
    Decidable (feasible cfg u a) :=
  inferInstanceAs (Decidable (_ ∧ ∀ c ∈ builtConstraints cfg u, c.sat a))

/-- Solver statuses of the external MIQP solver contract (§4.3 of the
spec); the script receives one in `results = opt.solve(m)` at line 108. -/
inductive SolverStatus where
  | optimal
  | infeasible
  | unbounded
  | solverError
  | timedOut
  deriving DecidableEq

/-- The rational quantities computed at lines 110-116. -/
structure Report where
  rs : ℚ
  covs : ℚ
  cards : ℚ
  tlong : ℚ
  clong : ℚ
  tshrt : ℚ
  cshrt : ℚ

/-- Lines 110-116 of the script, the result-derivation block executed
directly after `results = opt.solve(m)`.  The script never inspects
`results`, so the status argument is taken but not consulted, and every
quantity is computed for whatever variable values are present. -/
def resultDerivation (_st : SolverStatus) {n : ℕ} (u : AssetData n) (a : Assignment n) :
    Report :=
  { rs := ∑ i, u.returns i * (a.allocation_l i - a.allocation_s i)
    covs := ∑ p : Fin n × Fin n,
      u.covariance_mat p.1 p.2 * (a.allocation_l p.1 - a.allocation_s p.1) *
        (a.allocation_l p.2 - a.allocation_s p.2)
    cards := ∑ i, (a.d_l i + a.d_s i)
    tlong := ∑ i, a.d_l i * a.allocation_l i
    clong := ∑ i, a.d_l i
    tshrt := ∑ i, a.d_s i * a.allocation_s i
    cshrt := ∑ i, a.d_s i
  }

/-- Line 117: `ann_sharpe = pd.np.sqrt(252) * rs / pd.np.sqrt(covs)`,
computed from the same block with no guard on `covs = 0` and no error
path; over `ℝ` since it takes square roots. -/
noncomputable def ann_sharpe (st : SolverStatus) {n : ℕ} (u : AssetData n)
    (a : Assignment n) : ℝ :=
  Real.sqrt 252 * ((resultDerivation st u a).rs : ℝ) /
    Real.sqrt ((resultDerivation st u a).covs : ℝ)

/-! ### Spec-side definitions

Definitions written from the wording of the specification, to be compared
with the source-derived ones above. -/

/-- The per-asset short-bound constraint in the form the spec demands of
implementers: `s_i ≤ d_i^s · shortUpperBound_i`, where the short
exposure ceiling of asset `i` is its lower-bound magnitude
`lower_asset_bounds[i]` (spec §3: the lower exposure bound magnitude
applies to the short allocation). -/
def claimedShortBound {n : ℕ} (u : AssetData n) (i : Fin n) : LinCons n :=
  ⟨vExpr [⟨1, .allocS i⟩], Ineq.le, vExpr [⟨u.lower_asset_bounds i, .dS i⟩]⟩

/-- The objective exactly as the spec states it (§4.2): a nested double
sum `Σ_i Σ_j` over ordered pairs. -/
def specObjective (cfg : ScriptConfig) {n : ℕ} (u : AssetData n) (a : Assignment n) : ℚ :=
  (∑ i, u.returns i * (a.allocation_l i - a.allocation_s i)) -
    cfg.rho * ∑ i, ∑ j,
      u.covariance_mat i j * (a.allocation_l i - a.allocation_s i) *
        (a.allocation_l j - a.allocation_s j)

/-! ### Concrete instances used by counterexamples and witnesses -/

/-- A one-asset universe with return 0.001, bounds 0.1, variance 0.0001. -/
def u1 : AssetData 1 :=
  { returns := fun _ => 1/1000
    upper_asset_bounds := fun _ => 1/10
    lower_asset_bounds := fun _ => 1/10
    covariance_mat := fun _ _ => 1/10000 }

/-- A two-asset universe with symmetric covariance. -/
def u2 : AssetData 2 :=
  { returns := ![1/1000, 2/1000]
    upper_asset_bounds := ![1/10, 1/10]
    lower_asset_bounds := ![1/10, 1/10]
    covariance_mat := fun i j => if i = j then 1/10000 else 0 }

/-- A two-asset universe whose second asset has a negative short lower
bound, which makes a nonzero short allocation feasible under the built
constraints. -/
def uW : AssetData 2 :=
  { returns := ![1/1000, 2/1000]
    upper_asset_bounds := ![1/10, 1/10]
    lower_asset_bounds := ![1/10, -1]
    covariance_mat := fun i j => if i = j then 1/10000 else 0 }

/-- A feasible assignment for `uW` under `scriptConfig`: no longs, a
short of 0.5 on the second asset. -/
def aW : Assignment 2 :=
  { allocation_l := ![0, 0]
    allocation_s := ![0, 1/2]
    d_l := ![0, 0]
    d_s := ![0, 1] }

/-- The all-zero assignment on `n` assets. -/
def zeroAssign (n : ℕ) : Assignment n :=
  { allocation_l := fun _ => 0
    allocation_s := fun _ => 0
    d_l := fun _ => 0
    d_s := fun _ => 0 }

/-- Assignment exercising the short-bound direction: short allocation
0.05 with the short indicator set. -/
def aC1 : Assignment 1 :=
  { allocation_l := fun _ => 0
    allocation_s := fun _ => 1/20
    d_l := fun _ => 0
    d_s := fun _ => 1 }

/-- Assignment with a long allocation but the long indicator at 0. -/
def aC8 : Assignment 1 :=
  { allocation_l := fun _ => 1
    allocation_s := fun _ => 0
    d_l := fun _ => 0
    d_s := fun _ => 0 }

/-- A two-asset universe whose covariance table is not symmetric:
`cov[0,1] = 1` but `cov[1,0] = 2`. -/
def asymData : AssetData 2 :=
  { returns := ![1/1000, 2/1000]
    upper_asset_bounds := ![1/10, 1/10]
    lower_asset_bounds := ![1/10, 1/10]
    covariance_mat := fun i j => if i = j then 1/10000 else if i = 0 then 1 else 2 }

/-! ### Unfolding lemmas for the individual constraint rules -/

theorem lflag_sat_iff {n : ℕ} (u : AssetData n) (a : Assignment n) (i : Fin n) :
    (lflag_rule u i).sat a ↔ a.allocation_l i ≤ u.upper_asset_bounds i * a.d_l i := by
  simp [lflag_rule, LinCons.sat, LinExpr.eval, vExpr, evalVar]

theorem sflag_sat_iff {n : ℕ} (u : AssetData n) (a : Assignment n) (i : Fin n) :
    (sflag_rule u i).sat a ↔ u.lower_asset_bounds i * a.d_s i ≤ -(a.allocation_s i) := by
  simp [sflag_rule, LinCons.sat, LinExpr.eval, vExpr, evalVar]

theorem card_sat_iff (cfg : ScriptConfig) {n : ℕ} (a : Assignment n) :
    (card_rule cfg n).sat a ↔ (∑ i, (a.d_l i + a.d_s i)) ≤ cfg.card := by
  simp [card_rule, LinCons.sat, LinExpr.eval, vExpr, cExpr, evalVar,
    List.map_flatten, List.map_ofFn, List.sum_flatten, List.sum_ofFn, Function.comp_def]

theorem binary_sat_iff {n : ℕ} (a : Assignment n) (i : Fin n) :
    (binary_rule i).sat a ↔ a.d_l i + a.d_s i ≤ 1 := by
  simp [binary_rule, LinCons.sat, LinExpr.eval, vExpr, cExpr, evalVar]

theorem netlong_ub_sat_iff (cfg : ScriptConfig) {n : ℕ} (a : Assignment n) :
    (netlong_rule_ub cfg n).sat a ↔ (∑ i, a.allocation_l i) ≤ cfg.net_upper_long_bound := by
  simp [netlong_rule_ub, LinCons.sat, LinExpr.eval, vExpr, cExpr, evalVar,
    List.map_ofFn, List.sum_ofFn, Function.comp_def]

theorem netlong_lb_sat_iff (cfg : ScriptConfig) {n : ℕ} (a : Assignment n) :
    (netlong_rule_lb cfg n).sat a ↔ (∑ i, a.allocation_l i) ≤ cfg.net_upper_long_bound := by
  simp [netlong_rule_lb, LinCons.sat, LinExpr.eval, vExpr, cExpr, evalVar,
    List.map_ofFn, List.sum_ofFn, Function.comp_def]

theorem netshrt_ub_sat_iff (cfg : ScriptConfig) {n : ℕ} (a : Assignment n) :
    (netshrt_rule_ub cfg n).sat a ↔ (∑ i, a.allocation_s i) ≤ cfg.net_upper_short_bound := by
  simp [netshrt_rule_ub, LinCons.sat, LinExpr.eval, vExpr, cExpr, evalVar,
    List.map_ofFn, List.sum_ofFn, Function.comp_def]

theorem netshrt_lb_sat_iff (cfg : ScriptConfig) {n : ℕ} (a : Assignment n) :
    (netshrt_rule_lb cfg n).sat a ↔ cfg.net_lower_short_bound ≤ ∑ i, a.allocation_s i := by
  simp [netshrt_rule_lb, LinCons.sat, LinExpr.eval, vExpr, cExpr, evalVar,
    List.map_ofFn, List.sum_ofFn, Function.comp_def]

/-- Feasibility for the built model, spelled out rule family by rule
family.  The four aggregate families appear under a `Fin n` binder
because the script declares them indexed over the investment set. -/
theorem feasible_iff (cfg : ScriptConfig) {n : ℕ} (u : AssetData n) (a : Assignment n) :
    feasible cfg u a ↔ domainOK a ∧
      (∀ i, (lflag_rule u i).sat a) ∧ (∀ i, (sflag_rule u i).sat a) ∧
      (card_rule cfg n).sat a ∧ (∀ i : Fin n, (binary_rule i).sat a) ∧
      (∀ _i : Fin n, (netlong_rule_ub cfg n).sat a) ∧
      (∀ _i : Fin n, (netlong_rule_lb cfg n).sat a) ∧
      (∀ _i : Fin n, (netshrt_rule_ub cfg n).sat a) ∧
      (∀ _i : Fin n, (netshrt_rule_lb cfg n).sat a) := by
  unfold feasible builtConstraints
  simp only [List.forall_mem_append, List.forall_mem_ofFn_iff, List.forall_mem_singleton]
  tauto


/-! ### Helper lemmas shared between claims -/

/-- Under the built constraints, an asset with a non-negative short
lower bound can carry no short allocation: line 65 demands
`-s_i ≥ d_s_i * lb_i ≥ 0` while the domain demands `s_i ≥ 0`. -/
theorem short_alloc_zero {n : ℕ} {cfg : ScriptConfig} {u : AssetData n} {a : Assignment n}
    (hfeas : feasible cfg u a) (i : Fin n) (hlb : 0 ≤ u.lower_asset_bounds i) :
    a.allocation_s i = 0 := by
  rw [feasible_iff] at hfeas
  obtain ⟨hdom, _, hsflag, _⟩ := hfeas
  have hs := (sflag_sat_iff u a i).mp (hsflag i)
  obtain ⟨hs0, _, _, hds⟩ := hdom i
  have hdsnn : 0 ≤ a.d_s i := by rcases hds with h | h <;> rw [h] <;> norm_num
  have h1 : 0 ≤ u.lower_asset_bounds i * a.d_s i := mul_nonneg hlb hdsnn
  linarith

/-- Under the built constraints, an asset with a strictly positive short
lower bound must also have its short indicator at 0. -/
theorem short_flag_zero {n : ℕ} {cfg : ScriptConfig} {u : AssetData n} {a : Assignment n}
    (hfeas : feasible cfg u a) (i : Fin n) (hlb : 0 < u.lower_asset_bounds i) :
    a.d_s i = 0 := by
  have hz := short_alloc_zero hfeas i (le_of_lt hlb)
  rw [feasible_iff] at hfeas
  obtain ⟨hdom, _, hsflag, _⟩ := hfeas
  have hs := (sflag_sat_iff u a i).mp (hsflag i)
  obtain ⟨_, _, _, hds⟩ := hdom i
  rcases hds with h | h
  · exact h
  · exfalso; rw [h, mul_one, hz] at hs; linarith

/-- The assignment `aW` satisfies every constraint the script builds for
`uW` under the hard-coded configuration. -/
theorem feasible_uW_aW : feasible scriptConfig uW aW := by
  rw [feasible_iff]
  refine ⟨?_, ?_, ?_, ?_, ?_, ?_, ?_, ?_, ?_⟩
  · intro i; fin_cases i <;> norm_num [aW]
  · intro i; fin_cases i <;> (rw [lflag_sat_iff]; norm_num [aW, uW])
  · intro i; fin_cases i <;> (rw [sflag_sat_iff]; norm_num [aW, uW])
  · rw [card_sat_iff]; norm_num [aW, scriptConfig, Fin.sum_univ_two]
  · intro i; fin_cases i <;> (rw [binary_sat_iff]; norm_num [aW])
  · intro _i; rw [netlong_ub_sat_iff]; norm_num [aW, scriptConfig, Fin.sum_univ_two]
  · intro _i; rw [netlong_lb_sat_iff]; norm_num [aW, scriptConfig, Fin.sum_univ_two]
  · intro _i; rw [netshrt_ub_sat_iff]; norm_num [aW, scriptConfig, Fin.sum_univ_two]
  · intro _i; rw [netshrt_lb_sat_iff]; norm_num [aW, scriptConfig, Fin.sum_univ_two]

/-! ### Claim theorems -/

/-- C1 counterexample: the short-bound constraint in the claimed form
`s_i ≤ d_s_i * shortUpperBound_i` is satisfied by an assignment that
violates the constraint the script actually builds at line 65, and the
claimed constraint is not among the built constraints. -/
theorem C1_counterexample : (claimedShortBound u1 0).sat aC1 ∧
    ¬ (sflag_rule u1 0).sat aC1 ∧
    claimedShortBound u1 0 ∉ (buildModel scriptConfig u1).constraints := by
  refine ⟨?_, ?_, ?_⟩
  · simp [claimedShortBound, LinCons.sat, LinExpr.eval, vExpr, evalVar, u1, aC1]
    norm_num
  · rw [sflag_sat_iff]; norm_num [u1, aC1]
  · simp [buildModel, builtConstraints, claimedShortBound, List.mem_append, List.mem_ofFn,
      lflag_rule, sflag_rule, card_rule, binary_rule, netlong_rule_ub, netlong_rule_lb,
      netshrt_rule_ub, netshrt_rule_lb, vExpr, cExpr]

/-- C1 amended: for every asset the built instance contains the
short-bound constraint exactly as line 65 writes it,
`-s_i ≥ d_s_i * lowerBound_i`, i.e. `d_s_i * lowerBound_i ≤ -s_i`. -/
theorem C1_short_bound_as_built (cfg : ScriptConfig) {n : ℕ} (u : AssetData n) (i : Fin n) :
    sflag_rule u i ∈ (buildModel cfg u).constraints ∧
    (∀ a : Assignment n, (sflag_rule u i).sat a ↔
      u.lower_asset_bounds i * a.d_s i ≤ -(a.allocation_s i)) := by
  constructor
  · unfold buildModel builtConstraints
    exact List.mem_append_left _ (List.mem_append_left _ (List.mem_append_left _
      (List.mem_append_left _ (List.mem_append_left _ (List.mem_append_left _
        (List.mem_append_right _ ((List.mem_ofFn _ _).mpr ⟨i, rfl⟩)))))))
  · exact fun a => sflag_sat_iff u a i

/-- C2: the rule named `netlong_rule_lb` emits the same constraint as
`netlong_rule_ub` (an upper bound by `net_upper_long_bound`), so the
configured net long lower bound 0.5 is never enforced: `aW` satisfies
every built constraint although its aggregate long allocation is 0. -/
theorem C2_net_long_lower_bound_not_enforced :
    netlong_rule_lb scriptConfig 2 = netlong_rule_ub scriptConfig 2 ∧
    feasible scriptConfig uW aW ∧
    (∑ i, aW.allocation_l i) = 0 ∧
    ¬ (scriptConfig.net_lower_long_bound ≤ ∑ i, aW.allocation_l i) := by
  refine ⟨rfl, feasible_uW_aW, ?_, ?_⟩
  · norm_num [aW, Fin.sum_univ_two]
  · norm_num [aW, scriptConfig, Fin.sum_univ_two]

/-- C3: for every asset with a non-negative short lower bound, every
feasible assignment of the built constraint set has zero short
allocation, and additionally a zero short indicator whenever the bound
is strictly positive. -/
theorem C3_nonneg_lower_bound_forces_no_short {n : ℕ} (cfg : ScriptConfig)
    (u : AssetData n) (a : Assignment n) (hfeas : feasible cfg u a) (i : Fin n)
    (hlb : 0 ≤ u.lower_asset_bounds i) :
    a.allocation_s i = 0 ∧ (0 < u.lower_asset_bounds i → a.d_s i = 0) :=
  ⟨short_alloc_zero hfeas i hlb, fun hpos => short_flag_zero hfeas i hpos⟩

/-- Witness for C3 at a concrete feasible assignment. -/
theorem C3_witness :
    aW.allocation_s 0 = 0 ∧ (0 < uW.lower_asset_bounds 0 → aW.d_s 0 = 0) :=
  C3_nonneg_lower_bound_forces_no_short scriptConfig uW aW feasible_uW_aW 0
    (by norm_num [uW])

/-- C4: for any universe whose short lower bounds are all non-negative,
the constraint set built with the hard-coded configuration
(`net_lower_short_bound = 0.5`) is unsatisfiable: the short-bound
constraints force every short allocation to 0 while the net-short
lower-bound constraint demands their sum be at least 0.5.  The
hypothesis `0 < n` delimits exactly the inputs for which the script
builds a constraint set at all: with zero tickers, `card_rule` returns
the plain Python bool `True` (a sum over the empty investment set) and
Pyomo raises `ValueError` at `m.construct()` (line 107) before any
constraint set exists. -/
theorem C4_hardcoded_config_infeasible {n : ℕ} (hn : 0 < n) (u : AssetData n)
    (hlb : ∀ i, 0 ≤ u.lower_asset_bounds i) :
    ¬ ∃ a : Assignment n, feasible scriptConfig u a := by
  rintro ⟨a, hfeas⟩
  have hz : ∀ i, a.allocation_s i = 0 := fun i => short_alloc_zero hfeas i (hlb i)
  rw [feasible_iff] at hfeas
  obtain ⟨_, _, _, _, _, _, _, _, hnetlb⟩ := hfeas
  have h := (netshrt_lb_sat_iff scriptConfig a).mp (hnetlb ⟨0, hn⟩)
  rw [Finset.sum_congr rfl fun i _ => hz i] at h
  simp only [Finset.sum_const_zero] at h
  norm_num [scriptConfig] at h

/-- Witness for C4 at a concrete one-asset universe. -/
theorem C4_witness :
    (∀ i : Fin 1, 0 ≤ u1.lower_asset_bounds i) ∧
      ¬ ∃ a : Assignment 1, feasible scriptConfig u1 a :=
  ⟨fun _ => by norm_num [u1],
    C4_hardcoded_config_infeasible (by norm_num) u1 (fun _ => by norm_num [u1])⟩

/-- C5 counterexample: for two assets the built model has 15
constraints, not 5*2+3 = 13. -/
theorem C5_counterexample :
    (buildModel scriptConfig u2).constraints.length ≠ 5 * 2 + 3 := by
  simp [buildModel, builtConstraints]

/-- C5 amended: the builder declares one objective (the single
`objective` field of `MIQPInstance`, set to `obj_rule`), `7n + 1`
constraints — the four aggregate constraint families are declared
indexed over the investment set and hence emitted once per asset — and
`4n` decision variables. -/
theorem C5_model_sizes (cfg : ScriptConfig) {n : ℕ} (u : AssetData n) :
    (buildModel cfg u).constraints.length = 7 * n + 1 ∧
    (buildModel cfg u).varDecls.length = 4 * n := by
  constructor
  · simp [buildModel, builtConstraints]; omega
  · simp [variableDecls, buildModel]; omega

/-- C6: the result-derivation block (lines 110-117) never consults the
solver status — the report and the Sharpe value are computed identically
for every status, including Infeasible, Unbounded, SolverError and
TimedOut. -/
theorem C6_result_derivation_ignores_status (st : SolverStatus) {n : ℕ}
    (u : AssetData n) (a : Assignment n) :
    resultDerivation st u a = resultDerivation SolverStatus.optimal u a ∧
    ann_sharpe st u a = ann_sharpe SolverStatus.optimal u a :=
  ⟨rfl, rfl⟩

/-- C7: at the all-zero assignment the computed variance is exactly 0,
and the script still produces a plain numeric Sharpe value from the
unguarded division `sqrt(252)*rs/sqrt(covs)` — there is no error path or
sentinel in the code (in floating point this evaluates to NaN; in the
total real arithmetic of the embedding it collapses to 0). -/
theorem C7_zero_variance_sharpe_unguarded :
    (resultDerivation SolverStatus.optimal u1 (zeroAssign 1)).covs = 0 ∧
    ann_sharpe SolverStatus.optimal u1 (zeroAssign 1) = 0 := by
  have hcovs : (resultDerivation SolverStatus.optimal u1 (zeroAssign 1)).covs = 0 := by
    simp [resultDerivation, zeroAssign]
  have hrs : (resultDerivation SolverStatus.optimal u1 (zeroAssign 1)).rs = 0 := by
    simp [resultDerivation, zeroAssign]
  exact ⟨hcovs, by simp [ann_sharpe, hcovs, hrs]⟩

/-- C8 counterexample: with long indicator 0 but long allocation 1, the
reported total long allocation is 0 while the plain sum of long
allocations is 1. -/
theorem C8_counterexample :
    (resultDerivation SolverStatus.optimal u1 aC8).tlong ≠ ∑ i, aC8.allocation_l i := by
  simp [resultDerivation, aC8]

/-- C8 amended: lines 113 and 115 weight each allocation by its
indicator, `tlong = Σ d_l_i * l_i` and `tshrt = Σ d_s_i * s_i`; on any
assignment satisfying the built constraints and variable domains these
coincide with the plain sums the claim describes. -/
theorem C8_totals_indicator_weighted (st : SolverStatus) (cfg : ScriptConfig) {n : ℕ}
    (u : AssetData n) (a : Assignment n) :
    (resultDerivation st u a).tlong = ∑ i, a.d_l i * a.allocation_l i ∧
    (resultDerivation st u a).tshrt = ∑ i, a.d_s i * a.allocation_s i ∧
    (feasible cfg u a →
      (resultDerivation st u a).tlong = ∑ i, a.allocation_l i ∧
      (resultDerivation st u a).tshrt = ∑ i, a.allocation_s i) := by
  refine ⟨rfl, rfl, fun hfeas => ?_⟩
  rw [feasible_iff] at hfeas
  obtain ⟨hdom, hlflag, hsflag, _⟩ := hfeas
  constructor
  · show (∑ i, a.d_l i * a.allocation_l i) = _
    refine Finset.sum_congr rfl fun i _ => ?_
    obtain ⟨_, hl0, hdl, _⟩ := hdom i
    rcases hdl with h | h
    · have hub := (lflag_sat_iff u a i).mp (hlflag i)
      rw [h, mul_zero] at hub
      rw [h, zero_mul]
      linarith
    · rw [h, one_mul]
  · show (∑ i, a.d_s i * a.allocation_s i) = _
    refine Finset.sum_congr rfl fun i _ => ?_
    obtain ⟨hs0, _, _, hds⟩ := hdom i
    rcases hds with h | h
    · have hsb := (sflag_sat_iff u a i).mp (hsflag i)
      rw [h, mul_zero] at hsb
      rw [h, zero_mul]
      linarith
    · rw [h, one_mul]

/-- Witness for C8 amended at a concrete feasible assignment. -/
theorem C8_witness :
    (resultDerivation SolverStatus.optimal uW aW).tlong = ∑ i, aW.allocation_l i ∧
    (resultDerivation SolverStatus.optimal uW aW).tshrt = ∑ i, aW.allocation_s i :=
  (C8_totals_indicator_weighted SolverStatus.optimal scriptConfig uW aW).2.2 feasible_uW_aW

/-- C9: a covariance table that is asymmetric far beyond the 1e-9
tolerance is accepted without any validation: the full model — all
`7*2+1` constraints and `4*2` variable declarations — is built from it,
and no rejection path exists anywhere in the script. -/
theorem C9_asymmetric_covariance_not_rejected :
    asymData.covariance_mat 0 1 ≠ asymData.covariance_mat 1 0 ∧
    (1:ℚ)/1000000000 < |asymData.covariance_mat 0 1 - asymData.covariance_mat 1 0| ∧
    (buildModel scriptConfig asymData).constraints.length = 7 * 2 + 1 ∧
    (buildModel scriptConfig asymData).varDecls.length = 4 * 2 := by
  refine ⟨by norm_num [asymData], by norm_num [asymData], ?_, ?_⟩
  · simp [buildModel, builtConstraints]
  · simp [buildModel, variableDecls]

/-- C10: the objective the builder installs equals the objective of the
spec, `Σ r_i (l_i - s_i) - rho * Σ_i Σ_j Cov(i,j)(l_i - s_i)(l_j - s_j)`,
with the double sum over all ordered pairs. -/
theorem C10_objective_matches_spec (cfg : ScriptConfig) {n : ℕ} (u : AssetData n)
    (a : Assignment n) :
    (buildModel cfg u).objective a = specObjective cfg u a := by
  show obj_rule cfg u a = specObjective cfg u a
  unfold obj_rule specObjective
  simp [Fintype.sum_prod_type]

end Portfolio
